import Mathlib

set_option autoImplicit false

/-
Verification of the `scrapy-selenium` middleware (`scrapy_selenium/middlewares.py`).

The middleware owns one selenium web-driver handle. It is constructed from the
crawler settings (`from_crawler` → `__init__`), intercepts `SeleniumRequest`s in
`process_request`, drives the browser, and synthesizes an `HtmlResponse`; the
`spider_closed` hook quits the driver.

The embedding below models:
* Python `None` as `Option.none`, Python truthiness explicitly;
* the external effects of construction (zip files written to the current
  working directory, driver sessions launched) as an explicit `World` log;
* the `%`-formatting of the proxy background script as a character-level
  substitution function over the verbatim template string;
* the live browser session during `process_request` as an abstract state `σ`
  together with a `DriverModel σ` of the driver API calls the code makes.
-/

namespace ScrapySelenium

/-- Errors the Python code can raise, as far as the middleware is concerned.
`notConfigured` is scrapy's `NotConfigured`; the others are the Python/selenium
exceptions that can escape the modelled code paths. -/
inductive PyError where
  | notConfigured (msg : String)
  | importError (modName : String)
  | typeError (msg : String)
  | attributeError (attr : String)
  | timeoutException
deriving DecidableEq, Repr

/-- Python truthiness of an optional boolean setting: `None` is falsy,
a `bool` is its own truth value. -/
def truthy : Option Bool → Bool
  | none => false
  | some b => b

/-- Python truthiness of an optional string: `None` and the empty string are
falsy, every other string is truthy. -/
def truthyStr : Option String → Bool
  | none => false
  | some s => s ≠ ""

/-- Python `str()` applied to an optional string: `None` renders as `"None"`. -/
def pyStrOpt : Option String → String
  | none => "None"
  | some s => s

/-- Python `str()` applied to an optional integer: `None` renders as `"None"`,
an integer as its decimal representation. -/
def pyStrInt : Option Int → String
  | none => "None"
  | some i => toString i

/-- Character-level model of Python `%`-formatting restricted to `%s`
conversions: each `%s` consumes the next argument verbatim. Only instantiated
on the proxy background-script template, whose number of `%s` slots matches the
argument count (Python raises on arity mismatch; that case is unreachable
here). -/
def pyFormatChars : List Char → List String → List Char
  | '%' :: 's' :: rest, a :: args => a.data ++ pyFormatChars rest args
  | c :: rest, args => c :: pyFormatChars rest args
  | [], _ => []

/-- Python `template % args` (with `%s` slots only), on strings. -/
def pyFormat (t : String) (args : List String) : String :=
  ⟨pyFormatChars t.data args⟩

/-- The verbatim `manifest_json` triple-quoted literal from `__init__`
(proxy branch). -/
def manifest_json : String :=
  "\n            \x7b\n                \"version\": \"1.0.0\",\n                \"manifest_version\": 2,\n                \"name\": \"Chrome Proxy\",\n                \"permissions\": [\n                    \"proxy\",\n                    \"tabs\",\n                    \"unlimitedStorage\",\n                    \"storage\",\n                    \"<all_urls>\",\n                    \"webRequest\",\n                    \"webRequestBlocking\"\n                ],\n                \"background\": \x7b\n                    \"scripts\": [\"background.js\"]\n                \x7d,\n                \"minimum_chrome_version\":\"22.0.0\"\n            \x7d\n            "

/-- The verbatim `background_js` triple-quoted template from `__init__`
(proxy branch), before the `% (proxy_host, proxy_port, proxy_user,
proxy_pass)` substitution. -/
def backgroundJsTemplate : String :=
  "\n            var config = \x7b\n                mode: \x27fixed_servers\x27,\n                rules: \x7b\n                    singleProxy: \x7b\n                        scheme: \x27http\x27,\n                        host: \x27%s\x27,\n                        port: parseInt(%s)\n                    \x7d,\n                    bypassList: [\x27localhost\x27]\n                \x7d\n            \x7d;\n\n            chrome.proxy.settings.set(\x7bvalue: config, scope: \x27regular\x27\x7d, function() \x7b\x7d);\n\n            function callbackFn(details) \x7b\n                return \x7b\n                    authCredentials: \x7b\n                        username: \x27%s\x27,\n                        password: \x27%s\x27\n                    \x7d\n                \x7d;\n            \x7d\n\n            chrome.webRequest.onAuthRequired.addListener(\n                callbackFn,\n                \x7burls: [\x27<all_urls>\x27]\x7d,\n                [\x27blocking\x27]\n            );\n            "

/-- Literal text of the background template before the first `%s` slot. -/
def bgChunk0 : String :=
  "\n            var config = \x7b\n                mode: \x27fixed_servers\x27,\n                rules: \x7b\n                    singleProxy: \x7b\n                        scheme: \x27http\x27,\n                        host: \x27"

/-- Literal text of the background template between the host slot and the
port slot. -/
def bgChunk1 : String :=
  "\x27,\n                        port: parseInt("

/-- Literal text of the background template between the port slot and the
username slot. -/
def bgChunk2 : String :=
  ")\n                    \x7d,\n                    bypassList: [\x27localhost\x27]\n                \x7d\n            \x7d;\n\n            chrome.proxy.settings.set(\x7bvalue: config, scope: \x27regular\x27\x7d, function() \x7b\x7d);\n\n            function callbackFn(details) \x7b\n                return \x7b\n                    authCredentials: \x7b\n                        username: \x27"

/-- Literal text of the background template between the username slot and the
password slot. -/
def bgChunk3 : String :=
  "\x27,\n                        password: \x27"

/-- Literal text of the background template after the password slot. -/
def bgChunk4 : String :=
  "\x27\n                    \x7d\n                \x7d;\n            \x7d\n\n            chrome.webRequest.onAuthRequired.addListener(\n                callbackFn,\n                \x7burls: [\x27<all_urls>\x27]\x7d,\n                [\x27blocking\x27]\n            );\n            "

/-- Model of a selenium `Options` object: only the operations the middleware
performs on it (`binary_location` assignment, `add_argument`,
`add_extension`). -/
structure Options where
  binary_location : Option String := none
  arguments : List String := []
  extensions : List String := []
deriving DecidableEq, Repr

/-- A zip archive written to disk: its file name (relative to the current
working directory) and its entries in write order, each entry a
(name, content) pair as produced by `ZipFile.writestr`. -/
structure ZipArchive where
  filename : String
  entries : List (String × String)
deriving DecidableEq, Repr

/-- Which of the three driver-launch branches of `__init__` created a
handle. -/
inductive LaunchBranch where
  | proxiedLocal
  | plainLocal
  | remote
deriving DecidableEq, Repr

/-- A launched driver handle, recording the branch that created it and the
arguments passed to the driver constructor. For the remote branch the options
are passed through `to_capabilities`; the capabilities descriptor is modelled
by the options object it is derived from. -/
structure DriverHandle where
  viaBranch : LaunchBranch
  executable_path : Option String
  options : Options
  command_executor : Option String
deriving DecidableEq, Repr

/-- The external effects of middleware construction: zip files written to the
current working directory and driver sessions launched, in order. -/
structure World where
  files : List ZipArchive := []
  driversLaunched : List DriverHandle := []
deriving DecidableEq, Repr

/-- Driver families resolvable as `selenium.webdriver.<name>.webdriver` /
`.options` by `import_module`. The exact set belongs to the external selenium
package and is immaterial to the claims; `import_module` fails on any other
name. -/
def supportedDriverNames : List String :=
  ["chrome", "firefox", "edge", "ie", "opera", "webkitgtk"]

/-- The middleware object as far as construction is concerned: its `driver`
attribute. `none` models the attribute never having been assigned (no launch
branch executed), so that reading it raises `AttributeError`. -/
structure SeleniumMiddleware where
  driver : Option DriverHandle
deriving DecidableEq, Repr

/-- Shallow embedding of `SeleniumMiddleware.__init__`. Parameters are in the
Python order; the `World` threads the external effects. Errors return the
world as of the raise point. -/
def SeleniumMiddleware.init
    (driver_name : String)
    (driver_executable_path : Option String)
    (browser_executable_path : Option String)
    (command_executor : Option String)
    (driver_arguments : Option (List String))
    (proxy_enabled : Option Bool)
    (proxy_host : Option String)
    (proxy_port : Option Int)
    (proxy_user : Option String)
    (proxy_pass : Option String)
    (w : World) : World × Except PyError SeleniumMiddleware :=
  if driver_name ∈ supportedDriverNames then
    let opts0 : Options := {}
    let opts1 : Options :=
      if truthyStr browser_executable_path then
        { opts0 with binary_location := browser_executable_path }
      else opts0
    match driver_arguments with
    | none => (w, Except.error (PyError.typeError "argument of type NoneType is not iterable"))
    | some args =>
      let driver_options : Options := { opts1 with arguments := opts1.arguments ++ args }
      if truthy proxy_enabled then
        let background_js : String :=
          pyFormat backgroundJsTemplate
            [pyStrOpt proxy_host, pyStrInt proxy_port, pyStrOpt proxy_user, pyStrOpt proxy_pass]
        let plugin_file : String := "proxy_auth_plugin.zip"
        let archive : ZipArchive :=
          { filename := plugin_file
            entries := [("manifest.json", manifest_json), ("background.js", background_js)] }
        let w1 : World := { w with files := w.files ++ [archive] }
        let optsExt : Options :=
          { driver_options with extensions := driver_options.extensions ++ [plugin_file] }
        let d : DriverHandle :=
          { viaBranch := LaunchBranch.proxiedLocal
            executable_path := driver_executable_path
            options := optsExt
            command_executor := none }
        ({ w1 with driversLaunched := w1.driversLaunched ++ [d] }, Except.ok { driver := some d })
      else
        match driver_executable_path with
        | some _ =>
          let d : DriverHandle :=
            { viaBranch := LaunchBranch.plainLocal
              executable_path := driver_executable_path
              options := driver_options
              command_executor := none }
          ({ w with driversLaunched := w.driversLaunched ++ [d] }, Except.ok { driver := some d })
        | none =>
          match command_executor with
          | some _ =>
            let d : DriverHandle :=
              { viaBranch := LaunchBranch.remote
                executable_path := none
                options := driver_options
                command_executor := command_executor }
            ({ w with driversLaunched := w.driversLaunched ++ [d] }, Except.ok { driver := some d })
          | none => (w, Except.ok { driver := none })
  else
    (w, Except.error (PyError.importError ("selenium.webdriver." ++ driver_name ++ ".webdriver")))

/-- The crawler settings read by `from_crawler`, each `settings.get` returning
`none` when the key is absent. -/
structure Settings where
  SELENIUM_DRIVER_NAME : Option String := none
  SELENIUM_DRIVER_EXECUTABLE_PATH : Option String := none
  SELENIUM_BROWSER_EXECUTABLE_PATH : Option String := none
  SELENIUM_COMMAND_EXECUTOR : Option String := none
  SELENIUM_DRIVER_ARGUMENTS : Option (List String) := none
  SELENIUM_PROXY_ENABLED : Option Bool := none
  SELENIUM_PROXY_HOST : Option String := none
  SELENIUM_PROXY_PORT : Option Int := none
  SELENIUM_PROXY_USER : Option String := none
  SELENIUM_PROXY_PASS : Option String := none
deriving DecidableEq, Repr

/-- Shallow embedding of `SeleniumMiddleware.from_crawler`: validates the
settings, then constructs the middleware. The signal connection of
`spider_closed` has no effect modelled here. -/
def SeleniumMiddleware.from_crawler (s : Settings) (w : World) :
    World × Except PyError SeleniumMiddleware :=
  match s.SELENIUM_DRIVER_NAME with
  | none => (w, Except.error (PyError.notConfigured "SELENIUM_DRIVER_NAME must be set"))
  | some driver_name =>
    if s.SELENIUM_DRIVER_EXECUTABLE_PATH = none ∧ s.SELENIUM_COMMAND_EXECUTOR = none then
      (w, Except.error (PyError.notConfigured
        "Either SELENIUM_DRIVER_EXECUTABLE_PATH or SELENIUM_COMMAND_EXECUTOR must be set"))
    else
      SeleniumMiddleware.init driver_name
        s.SELENIUM_DRIVER_EXECUTABLE_PATH
        s.SELENIUM_BROWSER_EXECUTABLE_PATH
        s.SELENIUM_COMMAND_EXECUTOR
        s.SELENIUM_DRIVER_ARGUMENTS
        s.SELENIUM_PROXY_ENABLED
        s.SELENIUM_PROXY_HOST
        s.SELENIUM_PROXY_PORT
        s.SELENIUM_PROXY_USER
        s.SELENIUM_PROXY_PASS
        w

/-- Values stored in a request's `meta` dictionary, as far as the middleware
writes or the claims inspect them: raw screenshot bytes, the reference to the
middleware's own live driver object (`self.driver`), or anything else the
caller put there. -/
inductive MetaVal where
  | bytes (b : List UInt8)
  | driverRef
  | str (s : String)
deriving DecidableEq, Repr

/-- Python dict lookup on a `meta` association list (keys are unique in a
dict; lookup returns the first match). -/
def getMeta : List (String × MetaVal) → String → Option MetaVal
  | [], _ => none
  | (k', v') :: rest, k => if k' = k then some v' else getMeta rest k

/-- Python dict assignment `meta[k] = v` (also `meta.update({k: v})`):
replaces the value at an existing key, otherwise appends the new entry in
insertion order. -/
def setMeta : List (String × MetaVal) → String → MetaVal → List (String × MetaVal)
  | [], k, v => [(k, v)]
  | (k', v') :: rest, k, v =>
    if k' = k then (k, v) :: rest else (k', v') :: setMeta rest k v

/-- The driver API calls `process_request` and `spider_closed` make, recorded
as a trace so that "no driver interaction" is an observable fact. -/
inductive DriverOp where
  | get (url : String)
  | add_cookie (name value : String)
  | wait_until_call
  | get_screenshot_as_png
  | execute_script (script : String)
  | page_source
  | current_url
  | quit
deriving DecidableEq, Repr

/-- Abstract model of the live browser session: a state type `σ` and the
driver API calls the middleware makes against it. `tick` advances the
external browser state by one polling step of `WebDriverWait` (page loading
progresses while the middleware polls). -/
structure DriverModel (σ : Type) where
  get : σ → String → σ
  add_cookie : σ → String → String → σ
  tick : σ → σ
  get_screenshot_as_png : σ → List UInt8
  execute_script : σ → String → σ
  page_source : σ → String
  current_url : σ → String

/-- Model of `SeleniumRequest` as consumed by the middleware: the fields
`process_request` reads. `wait_until` is the condition predicate evaluated
against the driver state; `meta` is the request's side-channel metadata map.
Field set and defaults follow the spec's Directive Request (its defining
module is not part of the sources). -/
structure SeleniumRequest (σ : Type) where
  url : String
  cookies : List (String × String) := []
  meta : List (String × MetaVal) := []
  wait_time : Nat := 10
  wait_until : Option (σ → Bool) := none
  screenshot : Bool := false
  script : Option String := none

/-- A request arriving at the middleware: either a plain scrapy `Request`
(carrying only what matters here, its `meta`) or a `SeleniumRequest`; the
constructor distinction models the `isinstance` check. -/
inductive Request (σ : Type) where
  | plain (meta : List (String × MetaVal))
  | selenium (r : SeleniumRequest σ)

/-- Model of scrapy's `HtmlResponse` as constructed by the middleware. -/
structure HtmlResponse (σ : Type) where
  url : String
  body : List UInt8
  encoding : String
  request : Request σ

/-- Python `str.encode` with the default UTF-8 codec. -/
def utf8Bytes (s : String) : List UInt8 :=
  s.toUTF8.data.toList

/-- Model of `WebDriverWait(driver, wait_time).until(cond)`: evaluate the
condition, and while it is false let the browser advance one tick and retry,
for at most `fuel` ticks; raise `TimeoutException` when the condition never
held. Returns the driver state at which the condition first held. -/
def webDriverWaitUntil {σ : Type} (m : DriverModel σ) (cond : σ → Bool) :
    Nat → σ → Except PyError σ
  | 0, s => if cond s then Except.ok s else Except.error PyError.timeoutException
  | n + 1, s => if cond s then Except.ok s else webDriverWaitUntil m cond n (m.tick s)

/-- What a call to `process_request` returns and leaves behind: the returned
value (`none` models Python `None`, "not handled"), the request's `meta` map
after the call, the middleware's driver state after the call, and the trace
of driver API calls made. -/
structure ProcOutput (σ : Type) where
  response : Option (HtmlResponse σ)
  meta : List (String × MetaVal)
  driver : Option σ
  trace : List DriverOp

/-- Shallow embedding of `SeleniumMiddleware.process_request`. The middleware's
`self.driver` is `driver` (`none` models the attribute never assigned, whose
access raises `AttributeError`); the browser behaviour is given by `m`. -/
def SeleniumMiddleware.process_request {σ : Type} (m : DriverModel σ)
    (driver : Option σ) : Request σ → Except PyError (ProcOutput σ)
  | Request.plain meta =>
    Except.ok { response := none, meta := meta, driver := driver, trace := [] }
  | Request.selenium r =>
    match driver with
    | none => Except.error (PyError.attributeError "driver")
    | some s0 =>
      let s1 := m.get s0 r.url
      let s2 := r.cookies.foldl (fun s c => m.add_cookie s c.1 c.2) s1
      let waited : Except PyError σ :=
        match r.wait_until with
        | none => Except.ok s2
        | some cond => webDriverWaitUntil m cond r.wait_time s2
      match waited with
      | Except.error e => Except.error e
      | Except.ok s3 =>
        let meta1 :=
          if r.screenshot then
            setMeta r.meta "screenshot" (MetaVal.bytes (m.get_screenshot_as_png s3))
          else r.meta
        let s4 :=
          match r.script with
          | none => s3
          | some sc => if sc = "" then s3 else m.execute_script s3 sc
        let body := utf8Bytes (m.page_source s4)
        let meta2 := setMeta meta1 "driver" MetaVal.driverRef
        Except.ok
          { response := some
              { url := m.current_url s4
                body := body
                encoding := "utf-8"
                request := Request.selenium r }
            meta := meta2
            driver := some s4
            trace :=
              [DriverOp.get r.url]
                ++ r.cookies.map (fun c => DriverOp.add_cookie c.1 c.2)
                ++ (match r.wait_until with
                    | none => []
                    | some _ => [DriverOp.wait_until_call])
                ++ (if r.screenshot then [DriverOp.get_screenshot_as_png] else [])
                ++ (match r.script with
                    | none => []
                    | some sc => if sc = "" then [] else [DriverOp.execute_script sc])
                ++ [DriverOp.page_source, DriverOp.current_url] }

/-- Shallow embedding of `SeleniumMiddleware.spider_closed`: quit the driver;
raises `AttributeError` when the `driver` attribute was never assigned. -/
def SeleniumMiddleware.spider_closed {σ : Type} (driver : Option σ) :
    Except PyError (List DriverOp) :=
  match driver with
  | none => Except.error (PyError.attributeError "driver")
  | some _ => Except.ok [DriverOp.quit]

/-- Recognizer for the "not configured" signal among construction results. -/
def isNotConfigured {α : Type} : Except PyError α → Bool
  | Except.error (PyError.notConfigured _) => true
  | _ => false

/-- A concrete browser behaviour over `Nat` states used to instantiate the
abstract theorems: every driver call advances the state by one. -/
def natModel : DriverModel Nat where
  get := fun s _ => s + 1
  add_cookie := fun s _ _ => s + 1
  tick := fun s => s + 1
  get_screenshot_as_png := fun s => [UInt8.ofNat s]
  execute_script := fun s _ => s + 1
  page_source := fun s => toString s
  current_url := fun s => "u" ++ toString s

section Lemmas

lemma pyFormatChars_cons_ne (c : Char) (hc : c ≠ '%') (rest : List Char)
    (args : List String) :
    pyFormatChars (c :: rest) args = c :: pyFormatChars rest args := by
  rw [pyFormatChars.eq_def]
  split
  · rename_i heq1 heq2
    injection heq2 with h1 _
    exact absurd h1 hc
  · rename_i heq _
    injection heq with h1 h2
    rw [← h1, ← h2]
  · rename_i heq
    exact absurd heq (List.cons_ne_nil c rest)

lemma pyFormatChars_consume (rest : List Char) (a : String) (args : List String) :
    pyFormatChars ('%' :: 's' :: rest) (a :: args) = a.data ++ pyFormatChars rest args := rfl

lemma pyFormatChars_append_no_percent (cs : List Char) (h : '%' ∉ cs)
    (rest : List Char) (args : List String) :
    pyFormatChars (cs ++ rest) args = cs ++ pyFormatChars rest args := by
  induction cs with
  | nil => rfl
  | cons c cs ih =>
    have hc : c ≠ '%' := fun hEq => h (hEq ▸ List.mem_cons_self c cs)
    have hcs : '%' ∉ cs := fun hm => h (List.mem_cons_of_mem c hm)
    simp only [List.cons_append, pyFormatChars_cons_ne c hc, ih hcs]

lemma getMeta_setMeta_self (meta : List (String × MetaVal)) (k : String) (v : MetaVal) :
    getMeta (setMeta meta k v) k = some v := by
  induction meta with
  | nil => simp [setMeta, getMeta]
  | cons p rest ih =>
    obtain ⟨a, b⟩ := p
    by_cases hk : a = k
    · simp [setMeta, hk, getMeta]
    · simp [setMeta, hk, getMeta, ih]

lemma getMeta_setMeta_ne (meta : List (String × MetaVal)) (k k' : String) (v : MetaVal)
    (h : k' ≠ k) :
    getMeta (setMeta meta k v) k' = getMeta meta k' := by
  have hkk : ¬ k = k' := fun hEq => h hEq.symm
  induction meta with
  | nil => simp [setMeta, getMeta, hkk]
  | cons p rest ih =>
    obtain ⟨a, b⟩ := p
    by_cases hk : a = k
    · subst hk
      simp [setMeta, getMeta, hkk]
    · simp [setMeta, hk, getMeta, ih]

lemma webDriverWaitUntil_zero {σ : Type} (m : DriverModel σ) (cond : σ → Bool) (s : σ) :
    webDriverWaitUntil m cond 0 s =
      if cond s then Except.ok s else Except.error PyError.timeoutException := rfl

lemma webDriverWaitUntil_succ {σ : Type} (m : DriverModel σ) (cond : σ → Bool)
    (n : Nat) (s : σ) :
    webDriverWaitUntil m cond (n + 1) s =
      if cond s then Except.ok s else webDriverWaitUntil m cond n (m.tick s) := rfl

lemma webDriverWaitUntil_error_timeout {σ : Type} (m : DriverModel σ) (cond : σ → Bool) :
    ∀ (n : Nat) (s : σ) (e : PyError),
      webDriverWaitUntil m cond n s = Except.error e → e = PyError.timeoutException := by
  intro n
  induction n with
  | zero =>
    intro s e h
    rw [webDriverWaitUntil_zero] at h
    by_cases hc : cond s
    · rw [if_pos hc] at h
      exact absurd h (by simp)
    · rw [if_neg hc] at h
      simpa using h.symm
  | succ n ih =>
    intro s e h
    rw [webDriverWaitUntil_succ] at h
    by_cases hc : cond s
    · rw [if_pos hc] at h
      exact absurd h (by simp)
    · rw [if_neg hc] at h
      exact ih (m.tick s) e h

lemma webDriverWaitUntil_timeout_iff {σ : Type} (m : DriverModel σ) (cond : σ → Bool) :
    ∀ (n : Nat) (s : σ),
      (webDriverWaitUntil m cond n s = Except.error PyError.timeoutException ↔
        ∀ k ≤ n, cond (m.tick^[k] s) = false) := by
  intro n
  induction n with
  | zero =>
    intro s
    rw [webDriverWaitUntil_zero]
    by_cases hc : cond s
    · rw [if_pos hc]
      constructor
      · intro h
        exact absurd h (by simp)
      · intro h
        have h0 := h 0 (Nat.le_refl 0)
        rw [Function.iterate_zero_apply] at h0
        simp [hc] at h0
    · rw [if_neg hc]
      have hcf : cond s = false := by simpa using hc
      constructor
      · intro _ k hk
        have hk0 : k = 0 := Nat.le_zero.mp hk
        subst hk0
        simpa using hcf
      · intro _
        rfl
  | succ n ih =>
    intro s
    rw [webDriverWaitUntil_succ]
    by_cases hc : cond s
    · rw [if_pos hc]
      constructor
      · intro h
        exact absurd h (by simp)
      · intro h
        have h0 := h 0 (Nat.zero_le _)
        rw [Function.iterate_zero_apply] at h0
        simp [hc] at h0
    · rw [if_neg hc]
      have hcf : cond s = false := by simpa using hc
      rw [ih (m.tick s)]
      constructor
      · intro h k hk
        match k with
        | 0 => simpa using hcf
        | k + 1 =>
          have hstep := h k (Nat.le_of_succ_le_succ hk)
          simpa [Function.iterate_succ_apply] using hstep
      · intro h k hk
        have hstep := h (k + 1) (Nat.succ_le_succ hk)
        simpa [Function.iterate_succ_apply] using hstep

lemma init_no_notConfigured
    (driver_name : String)
    (driver_executable_path browser_executable_path command_executor : Option String)
    (driver_arguments : Option (List String))
    (proxy_enabled : Option Bool)
    (proxy_host : Option String) (proxy_port : Option Int)
    (proxy_user proxy_pass : Option String)
    (w w' : World) (msg : String) :
    SeleniumMiddleware.init driver_name driver_executable_path browser_executable_path
        command_executor driver_arguments proxy_enabled proxy_host proxy_port proxy_user
        proxy_pass w ≠ (w', Except.error (PyError.notConfigured msg)) := by
  intro h
  simp only [SeleniumMiddleware.init] at h
  split at h
  · split at h
    · simp at h
    · split at h
      · simp at h
      · split at h
        · simp at h
        · split at h
          · simp at h
          · simp at h
  · simp at h

lemma pyFormatChars_no_percent (cs : List Char) (h : '%' ∉ cs) (args : List String) :
    pyFormatChars cs args = cs := by
  have happ := pyFormatChars_append_no_percent cs h [] args
  rw [show pyFormatChars ([] : List Char) args = [] from rfl] at happ
  simpa using happ

set_option maxRecDepth 8192 in
lemma bgTemplate_decomp :
    backgroundJsTemplate.data =
      bgChunk0.data ++ '%' :: 's' ::
        (bgChunk1.data ++ '%' :: 's' ::
          (bgChunk2.data ++ '%' :: 's' ::
            (bgChunk3.data ++ '%' :: 's' :: bgChunk4.data))) := by decide

lemma bgChunk0_no_percent : '%' ∉ bgChunk0.data := by decide

lemma bgChunk1_no_percent : '%' ∉ bgChunk1.data := by decide

lemma bgChunk2_no_percent : '%' ∉ bgChunk2.data := by decide

lemma bgChunk3_no_percent : '%' ∉ bgChunk3.data := by decide

lemma bgChunk4_no_percent : '%' ∉ bgChunk4.data := by decide

lemma pyFormat_bgTemplate (a b c d : String) :
    (pyFormat backgroundJsTemplate [a, b, c, d]).data =
      bgChunk0.data ++ a.data ++ bgChunk1.data ++ b.data ++ bgChunk2.data
        ++ c.data ++ bgChunk3.data ++ d.data ++ bgChunk4.data := by
  show pyFormatChars backgroundJsTemplate.data [a, b, c, d] = _
  rw [bgTemplate_decomp,
    pyFormatChars_append_no_percent _ bgChunk0_no_percent, pyFormatChars_consume,
    pyFormatChars_append_no_percent _ bgChunk1_no_percent, pyFormatChars_consume,
    pyFormatChars_append_no_percent _ bgChunk2_no_percent, pyFormatChars_consume,
    pyFormatChars_append_no_percent _ bgChunk3_no_percent, pyFormatChars_consume,
    pyFormatChars_no_percent _ bgChunk4_no_percent]
  simp [List.append_assoc]

end Lemmas

/-- C1: a request that is not a `SeleniumRequest` is passed through:
`process_request` returns `None` ("not handled") immediately, the request's
meta map and the driver state are unchanged, and no driver call is made (the
trace is empty). -/
theorem c1_non_selenium_passthrough {σ : Type} (m : DriverModel σ)
    (driver : Option σ) (meta : List (String × MetaVal)) :
    SeleniumMiddleware.process_request m driver (Request.plain meta) =
      Except.ok { response := none, meta := meta, driver := driver, trace := [] } := rfl

/-- C2: `from_crawler` raises `NotConfigured` when the driver name setting is
absent, or when both the driver executable path and the command-executor
settings are absent; in both cases the world is returned untouched (no zip
written, no driver launched, so the raise happens before any driver is
constructed). With a driver name and at least one launch strategy present,
no `NotConfigured` is ever raised. -/
theorem c2_from_crawler_not_configured (s : Settings) (w : World) :
    (s.SELENIUM_DRIVER_NAME = none →
      SeleniumMiddleware.from_crawler s w =
        (w, Except.error (PyError.notConfigured "SELENIUM_DRIVER_NAME must be set")))
    ∧ (s.SELENIUM_DRIVER_NAME ≠ none →
        s.SELENIUM_DRIVER_EXECUTABLE_PATH = none → s.SELENIUM_COMMAND_EXECUTOR = none →
        SeleniumMiddleware.from_crawler s w =
          (w, Except.error (PyError.notConfigured
            "Either SELENIUM_DRIVER_EXECUTABLE_PATH or SELENIUM_COMMAND_EXECUTOR must be set")))
    ∧ (s.SELENIUM_DRIVER_NAME ≠ none →
        (s.SELENIUM_DRIVER_EXECUTABLE_PATH ≠ none ∨ s.SELENIUM_COMMAND_EXECUTOR ≠ none) →
        ∀ (w' : World) (msg : String),
          SeleniumMiddleware.from_crawler s w ≠
            (w', Except.error (PyError.notConfigured msg))) := by
  refine ⟨?_, ?_, ?_⟩
  · intro hn
    simp [SeleniumMiddleware.from_crawler, hn]
  · intro hn hp he
    obtain ⟨name, hname⟩ := Option.ne_none_iff_exists'.mp hn
    simp [SeleniumMiddleware.from_crawler, hname, hp, he]
  · intro hn hstrat w' msg
    obtain ⟨name, hname⟩ := Option.ne_none_iff_exists'.mp hn
    have hcond : ¬ (s.SELENIUM_DRIVER_EXECUTABLE_PATH = none ∧
        s.SELENIUM_COMMAND_EXECUTOR = none) := by
      rcases hstrat with h | h
      · exact fun hand => h hand.1
      · exact fun hand => h hand.2
    simp only [SeleniumMiddleware.from_crawler, hname]
    rw [if_neg hcond]
    exact init_no_notConfigured name s.SELENIUM_DRIVER_EXECUTABLE_PATH
      s.SELENIUM_BROWSER_EXECUTABLE_PATH s.SELENIUM_COMMAND_EXECUTOR
      s.SELENIUM_DRIVER_ARGUMENTS s.SELENIUM_PROXY_ENABLED s.SELENIUM_PROXY_HOST
      s.SELENIUM_PROXY_PORT s.SELENIUM_PROXY_USER s.SELENIUM_PROXY_PASS w w' msg

/-- Witness for C2: the name-missing configuration raises `NotConfigured`
with the world untouched, while a validated configuration does not produce
that signal. -/
theorem c2_from_crawler_not_configured_witness :
    SeleniumMiddleware.from_crawler {} {} =
      ({}, Except.error (PyError.notConfigured "SELENIUM_DRIVER_NAME must be set"))
    ∧ SeleniumMiddleware.from_crawler
        { SELENIUM_DRIVER_NAME := some "firefox"
          SELENIUM_DRIVER_EXECUTABLE_PATH := some "/usr/local/bin/geckodriver"
          SELENIUM_DRIVER_ARGUMENTS := some ["-headless"] } {}
      ≠ (({} : World),
          Except.error (PyError.notConfigured "SELENIUM_DRIVER_NAME must be set")) :=
  ⟨(c2_from_crawler_not_configured {} {}).1 rfl,
   (c2_from_crawler_not_configured _ {}).2.2 (by simp) (Or.inl (by simp)) {} _⟩

/-- The configuration of C9's failing input: driver family and executable
path present, the extra-arguments setting omitted entirely. -/
def c9Settings : Settings :=
  { SELENIUM_DRIVER_NAME := some "chrome"
    SELENIUM_DRIVER_EXECUTABLE_PATH := some "/usr/local/bin/chromedriver" }

/-- C9 (behaviour of the code at the claim's input): with the extra-arguments
setting omitted, `settings.get` returns `None`, `__init__` iterates it, and
construction raises `TypeError` instead of completing. -/
theorem c9_missing_arguments_raises :
    SeleniumMiddleware.from_crawler c9Settings {} =
      (({} : World),
        Except.error (PyError.typeError "argument of type NoneType is not iterable")) := rfl

/-- C10: calling `__init__` directly with a falsy proxy flag and neither a
local executable path nor a remote endpoint completes normally without
launching anything: the world is unchanged and the `driver` attribute is
never assigned. The missing handle surfaces only when `process_request`
receives a `SeleniumRequest` or `spider_closed` runs, each raising
`AttributeError`. -/
theorem c10_init_without_strategy {σ : Type} (m : DriverModel σ)
    (driver_name : String) (hname : driver_name ∈ supportedDriverNames)
    (browser_executable_path : Option String) (args : List String)
    (proxy_enabled : Option Bool) (hproxy : truthy proxy_enabled = false)
    (proxy_host : Option String) (proxy_port : Option Int)
    (proxy_user proxy_pass : Option String) (w : World) (r : SeleniumRequest σ) :
    SeleniumMiddleware.init driver_name none browser_executable_path none (some args)
        proxy_enabled proxy_host proxy_port proxy_user proxy_pass w
      = (w, Except.ok { driver := none })
    ∧ SeleniumMiddleware.process_request m (none : Option σ) (Request.selenium r)
        = Except.error (PyError.attributeError "driver")
    ∧ SeleniumMiddleware.spider_closed (none : Option σ)
        = Except.error (PyError.attributeError "driver") := by
  refine ⟨?_, rfl, rfl⟩
  simp [SeleniumMiddleware.init, hname, hproxy]

/-- Witness for C10 at a concrete invocation. -/
theorem c10_init_without_strategy_witness :
    SeleniumMiddleware.init "chrome" none none none (some []) none none none none none {}
      = (({} : World), Except.ok { driver := none })
    ∧ SeleniumMiddleware.process_request natModel (none : Option Nat)
        (Request.selenium { url := "http://example.org" })
      = Except.error (PyError.attributeError "driver")
    ∧ SeleniumMiddleware.spider_closed (none : Option Nat)
      = Except.error (PyError.attributeError "driver") :=
  c10_init_without_strategy natModel "chrome" (by decide) none [] none rfl
    none none none none {} { url := "http://example.org" }

/-- C3: with a validated configuration (resolvable driver family, an iterable
arguments setting, and at least one launch strategy), construction launches
exactly one driver, through exactly one of the three branches; a truthy proxy
flag takes the proxied-local branch even when a local executable path is also
configured. -/
theorem c3_exactly_one_launch_branch
    (driver_name : String) (hname : driver_name ∈ supportedDriverNames)
    (driver_executable_path browser_executable_path command_executor : Option String)
    (args : List String) (proxy_enabled : Option Bool)
    (proxy_host : Option String) (proxy_port : Option Int)
    (proxy_user proxy_pass : Option String) (w : World)
    (hstrat : driver_executable_path ≠ none ∨ command_executor ≠ none) :
    ∃ (d : DriverHandle) (mw : SeleniumMiddleware) (w' : World),
      SeleniumMiddleware.init driver_name driver_executable_path browser_executable_path
          command_executor (some args) proxy_enabled proxy_host proxy_port proxy_user
          proxy_pass w = (w', Except.ok mw)
      ∧ mw.driver = some d
      ∧ w'.driversLaunched = w.driversLaunched ++ [d]
      ∧ d.viaBranch =
          (if truthy proxy_enabled then LaunchBranch.proxiedLocal
           else if driver_executable_path.isSome then LaunchBranch.plainLocal
           else LaunchBranch.remote)
      ∧ (truthy proxy_enabled = true → driver_executable_path.isSome = true →
          d.viaBranch = LaunchBranch.proxiedLocal) := by
  by_cases hp : truthy proxy_enabled
  · simp only [SeleniumMiddleware.init, hname, if_true, hp]
    exact ⟨_, _, _, rfl, rfl, rfl, rfl, fun _ _ => rfl⟩
  · have hpf : truthy proxy_enabled = false := by simpa using hp
    match hpath : driver_executable_path with
    | some p =>
      simp only [SeleniumMiddleware.init, hname, if_true, hpf, Bool.false_eq_true,
        if_false, Option.isSome_some]
      exact ⟨_, _, _, rfl, rfl, rfl, rfl, fun hcontra _ => absurd hcontra (by simp [hpf])⟩
    | none =>
      have hce : command_executor ≠ none := by
        rcases hstrat with h | h
        · exact absurd rfl h
        · exact h
      match hexec : command_executor with
      | some c =>
        simp only [SeleniumMiddleware.init, hname, if_true, hpf, Bool.false_eq_true,
          if_false, Option.isSome_none]
        exact ⟨_, _, _, rfl, rfl, rfl, rfl, fun hcontra _ => absurd hcontra (by simp [hpf])⟩
      | none => exact absurd rfl hce

/-- C4: with proxy mode enabled and the proxy settings configured,
construction writes to the current working directory a zip archive named
`proxy_auth_plugin.zip` with exactly the two entries `manifest.json` and
`background.js`, and the background script is the verbatim template with the
configured host, port, user and password substituted verbatim for its four
`%s` slots. -/
theorem c4_proxy_plugin_zip
    (driver_name : String) (hname : driver_name ∈ supportedDriverNames)
    (driver_executable_path browser_executable_path command_executor : Option String)
    (args : List String) (proxy_enabled : Option Bool)
    (hp : truthy proxy_enabled = true)
    (host : String) (port : Int) (user pw : String) (w : World) :
    ∃ (mw : SeleniumMiddleware) (w' : World),
      SeleniumMiddleware.init driver_name driver_executable_path browser_executable_path
          command_executor (some args) proxy_enabled (some host) (some port) (some user)
          (some pw) w = (w', Except.ok mw)
      ∧ w'.files = w.files ++
          [{ filename := "proxy_auth_plugin.zip"
             entries := [("manifest.json", manifest_json),
                         ("background.js",
                          pyFormat backgroundJsTemplate [host, toString port, user, pw])] }]
      ∧ (pyFormat backgroundJsTemplate [host, toString port, user, pw]).data
          = bgChunk0.data ++ host.data ++ bgChunk1.data ++ (toString port).data
            ++ bgChunk2.data ++ user.data ++ bgChunk3.data ++ pw.data ++ bgChunk4.data := by
  simp only [SeleniumMiddleware.init, hname, if_true, hp]
  exact ⟨_, _, rfl, rfl, pyFormat_bgTemplate host (toString port) user pw⟩

/-- Witness for C4 at a concrete proxy configuration. -/
theorem c4_proxy_plugin_zip_witness :
    ∃ (mw : SeleniumMiddleware) (w' : World),
      SeleniumMiddleware.init "chrome" (some "/usr/local/bin/chromedriver") none none
          (some []) (some true) (some "proxy.example.com") (some 3128) (some "alice")
          (some "s3cret") {} = (w', Except.ok mw)
      ∧ w'.files = ({} : World).files ++
          [{ filename := "proxy_auth_plugin.zip"
             entries := [("manifest.json", manifest_json),
                         ("background.js",
                          pyFormat backgroundJsTemplate
                            ["proxy.example.com", toString (3128 : Int), "alice", "s3cret"])] }]
      ∧ (pyFormat backgroundJsTemplate
          ["proxy.example.com", toString (3128 : Int), "alice", "s3cret"]).data
          = bgChunk0.data ++ "proxy.example.com".data ++ bgChunk1.data
            ++ (toString (3128 : Int)).data ++ bgChunk2.data ++ "alice".data
            ++ bgChunk3.data ++ "s3cret".data ++ bgChunk4.data :=
  c4_proxy_plugin_zip "chrome" (by decide) (some "/usr/local/bin/chromedriver") none none
    [] (some true) rfl "proxy.example.com" 3128 "alice" "s3cret" {}

/-- The configuration of C8's counterexample: proxy enabled, driver family
and executable path present, every proxy host/port/user/password setting
absent. -/
def c8Settings : Settings :=
  { SELENIUM_DRIVER_NAME := some "chrome"
    SELENIUM_DRIVER_EXECUTABLE_PATH := some "/usr/local/bin/chromedriver"
    SELENIUM_DRIVER_ARGUMENTS := some []
    SELENIUM_PROXY_ENABLED := some true }

/-- C8 counterexample: with proxy enabled but all proxy settings missing,
construction is not rejected: no "not configured" signal is raised, and the
proxy extension zip is written anyway. -/
theorem c8_counterexample :
    isNotConfigured (SeleniumMiddleware.from_crawler c8Settings {}).2 = false
    ∧ (SeleniumMiddleware.from_crawler c8Settings {}).1.files.length = 1 :=
  ⟨rfl, rfl⟩

/-- C8 amended: the proxy settings are not validated: with proxy enabled and
all four proxy settings absent, construction proceeds (no `NotConfigured`),
building the proxy extension with each missing value rendered as the string
`"None"` (Python `str(None)`). -/
theorem c8_amended_no_proxy_validation
    (driver_name : String) (hname : driver_name ∈ supportedDriverNames)
    (driver_executable_path browser_executable_path command_executor : Option String)
    (args : List String) (proxy_enabled : Option Bool)
    (hp : truthy proxy_enabled = true) (w : World) :
    ∃ (mw : SeleniumMiddleware) (w' : World),
      SeleniumMiddleware.init driver_name driver_executable_path browser_executable_path
          command_executor (some args) proxy_enabled none none none none w
        = (w', Except.ok mw)
      ∧ w'.files = w.files ++
          [{ filename := "proxy_auth_plugin.zip"
             entries := [("manifest.json", manifest_json),
                         ("background.js",
                          pyFormat backgroundJsTemplate ["None", "None", "None", "None"])] }]
      ∧ (pyFormat backgroundJsTemplate ["None", "None", "None", "None"]).data
          = bgChunk0.data ++ "None".data ++ bgChunk1.data ++ "None".data ++ bgChunk2.data
            ++ "None".data ++ bgChunk3.data ++ "None".data ++ bgChunk4.data := by
  simp only [SeleniumMiddleware.init, hname, if_true, hp]
  exact ⟨_, _, rfl, rfl, pyFormat_bgTemplate "None" "None" "None" "None"⟩

/-- Witness for the amended C8 at a concrete configuration. -/
theorem c8_amended_no_proxy_validation_witness :
    ∃ (mw : SeleniumMiddleware) (w' : World),
      SeleniumMiddleware.init "chrome" (some "/usr/local/bin/chromedriver") none none
          (some []) (some true) none none none none {}
        = (w', Except.ok mw)
      ∧ w'.files = ({} : World).files ++
          [{ filename := "proxy_auth_plugin.zip"
             entries := [("manifest.json", manifest_json),
                         ("background.js",
                          pyFormat backgroundJsTemplate ["None", "None", "None", "None"])] }]
      ∧ (pyFormat backgroundJsTemplate ["None", "None", "None", "None"]).data
          = bgChunk0.data ++ "None".data ++ bgChunk1.data ++ "None".data ++ bgChunk2.data
            ++ "None".data ++ bgChunk3.data ++ "None".data ++ bgChunk4.data :=
  c8_amended_no_proxy_validation "chrome" (by decide) (some "/usr/local/bin/chromedriver")
    none none [] (some true) rfl {}

/-- Witness for C3 at a concrete configuration with both proxy and a local
path configured: the proxied-local branch is taken. -/
theorem c3_exactly_one_launch_branch_witness :
    ∃ (d : DriverHandle) (mw : SeleniumMiddleware) (w' : World),
      SeleniumMiddleware.init "firefox" (some "/usr/local/bin/geckodriver") none
          (some "http://selenium-hub:4444/wd/hub") (some []) (some true) none none none
          none {} = (w', Except.ok mw)
      ∧ mw.driver = some d
      ∧ w'.driversLaunched = ({} : World).driversLaunched ++ [d]
      ∧ d.viaBranch =
          (if truthy (some true) then LaunchBranch.proxiedLocal
           else if (some "/usr/local/bin/geckodriver" : Option String).isSome then
             LaunchBranch.plainLocal
           else LaunchBranch.remote)
      ∧ (truthy (some true) = true →
          (some "/usr/local/bin/geckodriver" : Option String).isSome = true →
          d.viaBranch = LaunchBranch.proxiedLocal) :=
  c3_exactly_one_launch_branch "firefox" (by decide) (some "/usr/local/bin/geckodriver")
    none (some "http://selenium-hub:4444/wd/hub") [] (some true) none none none none {}
    (Or.inl (by simp))

/-- C5: on a `SeleniumRequest` with `wait_until` set, `process_request`
results in the timeout signal exactly when the condition never evaluates true
against the driver within `wait_time` polling steps after navigation and
cookie installation. The timeout is the call's own result — nothing catches
or retries it — so it propagates to the caller. -/
theorem c5_wait_until_timeout {σ : Type} (m : DriverModel σ) (s0 : σ)
    (r : SeleniumRequest σ) (cond : σ → Bool) (hw : r.wait_until = some cond) :
    (SeleniumMiddleware.process_request m (some s0) (Request.selenium r)
        = Except.error PyError.timeoutException
      ↔ ∀ k ≤ r.wait_time,
          cond (m.tick^[k]
            (r.cookies.foldl (fun s c => m.add_cookie s c.1 c.2) (m.get s0 r.url)))
            = false) := by
  simp only [SeleniumMiddleware.process_request, hw]
  cases hres : webDriverWaitUntil m cond r.wait_time
      (r.cookies.foldl (fun s c => m.add_cookie s c.1 c.2) (m.get s0 r.url)) with
  | error e =>
    have he : e = PyError.timeoutException :=
      webDriverWaitUntil_error_timeout m cond r.wait_time _ e hres
    subst he
    constructor
    · intro _
      exact (webDriverWaitUntil_timeout_iff m cond r.wait_time _).mp hres
    · intro _
      rfl
  | ok s3 =>
    constructor
    · intro hcontra
      exact absurd hcontra (by simp)
    · intro hAll
      have htime := (webDriverWaitUntil_timeout_iff m cond r.wait_time _).mpr hAll
      rw [hres] at htime
      exact absurd htime (by simp)

/-- The request of C5's witness: a condition that never becomes true. -/
def c5Request : SeleniumRequest Nat :=
  { url := "http://example.com"
    wait_time := 3
    wait_until := some (fun _ => false) }

/-- Witness for C5: with a never-true condition, processing results in the
timeout signal. -/
theorem c5_wait_until_timeout_witness :
    SeleniumMiddleware.process_request natModel (some 0) (Request.selenium c5Request)
      = Except.error PyError.timeoutException :=
  (c5_wait_until_timeout natModel 0 c5Request (fun _ => false) rfl).mpr
    (fun _ _ => rfl)

/-- C6: when `process_request` handles a `SeleniumRequest` without error, the
returned response is built from the driver's final state: its URL is the
driver's current (possibly redirected) URL, its body the UTF-8 encoding of
the driver's page source, its encoding tag `"utf-8"`, and it carries the
originating request. -/
theorem c6_response_fields {σ : Type} (m : DriverModel σ) (s0 : σ)
    (r : SeleniumRequest σ) (out : ProcOutput σ)
    (h : SeleniumMiddleware.process_request m (some s0) (Request.selenium r)
          = Except.ok out) :
    ∃ sf, out.driver = some sf
      ∧ out.response = some
          { url := m.current_url sf
            body := utf8Bytes (m.page_source sf)
            encoding := "utf-8"
            request := Request.selenium r } := by
  simp only [SeleniumMiddleware.process_request] at h
  split at h
  · exact absurd h (by simp)
  · injection h with h'
    subst h'
    exact ⟨_, rfl, rfl⟩

/-- The request of C6's witness. -/
def c6Request : SeleniumRequest Nat := { url := "http://example.com" }

/-- The processing outcome of C6's witness. -/
def c6Out : ProcOutput Nat :=
  { response := some
      { url := "u1"
        body := utf8Bytes "1"
        encoding := "utf-8"
        request := Request.selenium c6Request }
    meta := [("driver", MetaVal.driverRef)]
    driver := some 1
    trace := [DriverOp.get "http://example.com", DriverOp.page_source,
      DriverOp.current_url] }

/-- Witness for C6 at a concrete request and driver model. -/
theorem c6_response_fields_witness :
    ∃ sf, c6Out.driver = some sf
      ∧ c6Out.response = some
          { url := natModel.current_url sf
            body := utf8Bytes (natModel.page_source sf)
            encoding := "utf-8"
            request := Request.selenium c6Request } :=
  c6_response_fields natModel 0 c6Request c6Out rfl

/-- C7: when `process_request` handles a `SeleniumRequest` without error, the
only entries it writes to the request's meta map are a `screenshot` entry with
the captured image bytes — present exactly when the request's screenshot flag
is set — and a `driver` entry with the live driver reference, always present;
every other key is left unchanged. -/
theorem c7_meta_writes {σ : Type} (m : DriverModel σ) (s0 : σ)
    (r : SeleniumRequest σ) (out : ProcOutput σ)
    (h : SeleniumMiddleware.process_request m (some s0) (Request.selenium r)
          = Except.ok out) :
    ∃ s3,
      (r.screenshot = true →
        getMeta out.meta "screenshot"
          = some (MetaVal.bytes (m.get_screenshot_as_png s3)))
      ∧ (r.screenshot = false →
          getMeta out.meta "screenshot" = getMeta r.meta "screenshot")
      ∧ getMeta out.meta "driver" = some MetaVal.driverRef
      ∧ (∀ k, k ≠ "screenshot" → k ≠ "driver" →
          getMeta out.meta k = getMeta r.meta k) := by
  simp only [SeleniumMiddleware.process_request] at h
  split at h
  · exact absurd h (by simp)
  · injection h with h'
    subst h'
    rename_i s3 heq
    refine ⟨s3, ?_, ?_, ?_, ?_⟩
    · intro hs
      simp only
      rw [getMeta_setMeta_ne _ _ _ _ (by decide : "screenshot" ≠ "driver")]
      rw [if_pos hs, getMeta_setMeta_self]
    · intro hs
      simp only
      rw [getMeta_setMeta_ne _ _ _ _ (by decide : "screenshot" ≠ "driver")]
      rw [if_neg (by simp [hs])]
    · simp only
      rw [getMeta_setMeta_self]
    · intro k hk1 hk2
      simp only
      rw [getMeta_setMeta_ne _ _ _ _ hk2]
      by_cases hs : r.screenshot
      · rw [if_pos hs, getMeta_setMeta_ne _ _ _ _ hk1]
      · rw [if_neg hs]

/-- The request of C7's witness: screenshot requested, an unrelated meta key
already present. -/
def c7Request : SeleniumRequest Nat :=
  { url := "http://example.com"
    meta := [("depth", MetaVal.str "2")]
    screenshot := true }

/-- The processing outcome of C7's witness. -/
def c7Out : ProcOutput Nat :=
  { response := some
      { url := "u1"
        body := utf8Bytes "1"
        encoding := "utf-8"
        request := Request.selenium c7Request }
    meta := [("depth", MetaVal.str "2"),
      ("screenshot", MetaVal.bytes [UInt8.ofNat 1]),
      ("driver", MetaVal.driverRef)]
    driver := some 1
    trace := [DriverOp.get "http://example.com", DriverOp.get_screenshot_as_png,
      DriverOp.page_source, DriverOp.current_url] }

/-- Witness for C7 at a concrete request and driver model. -/
theorem c7_meta_writes_witness :
    ∃ s3,
      (c7Request.screenshot = true →
        getMeta c7Out.meta "screenshot"
          = some (MetaVal.bytes (natModel.get_screenshot_as_png s3)))
      ∧ (c7Request.screenshot = false →
          getMeta c7Out.meta "screenshot" = getMeta c7Request.meta "screenshot")
      ∧ getMeta c7Out.meta "driver" = some MetaVal.driverRef
      ∧ (∀ k, k ≠ "screenshot" → k ≠ "driver" →
          getMeta c7Out.meta k = getMeta c7Request.meta k) :=
  c7_meta_writes natModel 0 c7Request c7Out rfl

end ScrapySelenium
